import Mathlib

/-!
Verification of the FSM core of ctl2mimir.

The definitions below are a shallow embedding of the Rust source:
  * `src/fsm/mod.rs`    — `State`, `Event`, `FSM::next`, `FSM::run`, `exec`
  * `src/api/indexes.rs` — `update_notifications`
  * `src/db/sqlite.rs`  — `update_index_status`
Rust machine types are modelled as follows: `u64`/`u32`/`i32` become `Nat`
or `Int` (every numeric value this program handles is within range),
`PathBuf` becomes `String` (paths in this codebase are valid UTF-8 strings),
`std::time::Duration` and `SystemTime` become pairs of naturals
(seconds, nanoseconds), and fallible operations return `Except`.
-/

/-- Model of `std::time::Duration` (u64 seconds, u32 nanoseconds). -/
structure RDuration where
  secs : Nat
  nanos : Nat
  deriving DecidableEq, Repr

/-- Model of `std::time::SystemTime`, represented by its duration since the
UNIX epoch, which is what serde serializes. -/
structure RSystemTime where
  secs : Nat
  nanos : Nat
  deriving DecidableEq, Repr

/-- Model of the `State` enum of `src/fsm/mod.rs` (lines 24-63).
`PathBuf` payloads are modelled as `String`. -/
inductive State where
  | NotAvailable
  | DownloadingInProgress (started_at : RSystemTime)
  | DownloadingError (details : String)
  | Downloaded (file_path : String) (duration : RDuration)
  | ProcessingInProgress (file_path : String) (started_at : RSystemTime)
  | ProcessingError (details : String)
  | Processed (file_path : String) (duration : RDuration)
  | IndexingInProgress (file_path : String) (started_at : RSystemTime)
  | IndexingError (details : String)
  | Indexed (duration : RDuration)
  | ValidationInProgress
  | ValidationError (details : String)
  | Available
  | Failure (message : String)
  deriving DecidableEq, Repr

/-- Model of the `Event` enum of `src/fsm/mod.rs` (lines 66-80). -/
inductive Event where
  | Download
  | DownloadingError (msg : String)
  | DownloadingComplete (path : String) (duration : RDuration)
  | Process (path : String)
  | ProcessingError (msg : String)
  | ProcessingComplete (path : String) (duration : RDuration)
  | Index (path : String)
  | IndexingError (msg : String)
  | IndexingComplete (duration : RDuration)
  | Validate
  | ValidationError (msg : String)
  | ValidationComplete
  | Reset
  deriving DecidableEq, Repr

/-- Variant name of a `State`, as produced by the derived `Debug`
implementation (the payload rendering of `{:#?}` never matters to the
claims under scrutiny, only the variant name does, so the model keeps
the variant name). -/
def debugState : State → String
  | .NotAvailable => "NotAvailable"
  | .DownloadingInProgress _ => "DownloadingInProgress"
  | .DownloadingError _ => "DownloadingError"
  | .Downloaded _ _ => "Downloaded"
  | .ProcessingInProgress _ _ => "ProcessingInProgress"
  | .ProcessingError _ => "ProcessingError"
  | .Processed _ _ => "Processed"
  | .IndexingInProgress _ _ => "IndexingInProgress"
  | .IndexingError _ => "IndexingError"
  | .Indexed _ => "Indexed"
  | .ValidationInProgress => "ValidationInProgress"
  | .ValidationError _ => "ValidationError"
  | .Available => "Available"
  | .Failure _ => "Failure"

/-- Variant name of an `Event`, as produced by the derived `Debug`
implementation. -/
def debugEvent : Event → String
  | .Download => "Download"
  | .DownloadingError _ => "DownloadingError"
  | .DownloadingComplete _ _ => "DownloadingComplete"
  | .Process _ => "Process"
  | .ProcessingError _ => "ProcessingError"
  | .ProcessingComplete _ _ => "ProcessingComplete"
  | .Index _ => "Index"
  | .IndexingError _ => "IndexingError"
  | .IndexingComplete _ => "IndexingComplete"
  | .Validate => "Validate"
  | .ValidationError _ => "ValidationError"
  | .ValidationComplete => "ValidationComplete"
  | .Reset => "Reset"

/-- Model of `FSM::next` (`src/fsm/mod.rs` lines 147-227).  The code calls
`SystemTime::now()` for the `started_at` fields; the current instant is
injected as the parameter `now`.  The catch-all arm builds
`format!("Wrong state, event combination: {:#?} {:#?}", s, e)`. -/
def next (now : RSystemTime) (s : State) (e : Event) : State :=
  match s, e with
  | .NotAvailable, .Download => .DownloadingInProgress now
  | .DownloadingInProgress _, .DownloadingError d => .DownloadingError d
  | .DownloadingInProgress _, .DownloadingComplete p d => .Downloaded p d
  | .DownloadingError _, .Reset => .NotAvailable
  | .Downloaded _ _, .Process p => .ProcessingInProgress p now
  | .ProcessingInProgress _ _, .ProcessingError d => .ProcessingError d
  | .ProcessingError _, .Reset => .NotAvailable
  | .ProcessingInProgress _ _, .ProcessingComplete p d => .Processed p d
  | .Processed _ _, .Index p => .IndexingInProgress p now
  | .Downloaded _ _, .Index p => .IndexingInProgress p now
  | .IndexingInProgress _ _, .IndexingError d => .IndexingError d
  | .IndexingError _, .Reset => .NotAvailable
  | .IndexingInProgress _ _, .IndexingComplete d => .Indexed d
  | .Indexed _, .Validate => .ValidationInProgress
  | .ValidationInProgress, .ValidationError d => .ValidationError d
  | .ValidationError _, .Reset => .NotAvailable
  | .ValidationInProgress, .ValidationComplete => .Available
  | s, e =>
    .Failure ("Wrong state, event combination: " ++ debugState s ++ " " ++ debugEvent e)

/-- Whether a state is the `Failure` variant. -/
def isFailure : State → Bool
  | .Failure _ => true
  | _ => false

/-- Failure message carried by a `Failure` state (empty for other states). -/
def failureMessage : State → String
  | .Failure m => m
  | _ => ""

/-- The legal-transition table of spec section 4.1, written from the spec's
words: `some target` for the rows listed in the table, `none` for every
other (state, event) pair.  This definition follows the SPEC, to be compared
with `next`, which follows the source. -/
def specTable (now : RSystemTime) (s : State) (e : Event) : Option State :=
  match s, e with
  | .NotAvailable, .Download => some (.DownloadingInProgress now)
  | .DownloadingInProgress _, .DownloadingComplete p d => some (.Downloaded p d)
  | .DownloadingInProgress _, .DownloadingError m => some (.DownloadingError m)
  | .DownloadingError _, .Reset => some .NotAvailable
  | .Downloaded _ _, .Process p => some (.ProcessingInProgress p now)
  | .Downloaded _ _, .Index p => some (.IndexingInProgress p now)
  | .ProcessingInProgress _ _, .ProcessingComplete p d => some (.Processed p d)
  | .ProcessingInProgress _ _, .ProcessingError m => some (.ProcessingError m)
  | .ProcessingError _, .Reset => some .NotAvailable
  | .Processed _ _, .Index p => some (.IndexingInProgress p now)
  | .IndexingInProgress _ _, .IndexingComplete d => some (.Indexed d)
  | .IndexingInProgress _ _, .IndexingError m => some (.IndexingError m)
  | .IndexingError _, .Reset => some .NotAvailable
  | .Indexed _, .Validate => some .ValidationInProgress
  | .ValidationInProgress, .ValidationComplete => some .Available
  | .ValidationInProgress, .ValidationError m => some (.ValidationError m)
  | .ValidationError _, .Reset => some .NotAvailable
  | _, _ => none

/-- Does `pat` start `l`? -/
def startsWithL : List Char → List Char → Bool
  | _, [] => true
  | [], _ :: _ => false
  | c :: cs, p :: ps => c = p && startsWithL cs ps

/-- Does `pat` occur as a contiguous run inside `l`? -/
def hasSubL (l pat : List Char) : Bool :=
  match l with
  | [] => startsWithL [] pat
  | _ :: cs => startsWithL l pat || hasSubL cs pat

/-- Does the string `pat` occur as a contiguous substring of `s`? -/
def strHasSub (s pat : String) : Bool :=
  hasSubL s.data pat.data

/-! ## JSON and the serde embedding

`State` derives `Serialize`/`Deserialize` with `#[serde(tag = "type")]`
(internally tagged).  The embedding works at the level of JSON trees:
`serializeState` models what `serde_json::to_string` would produce (as a
tree) and `deserializeState` models `serde_json::from_str` applied to a
tree.  serde's internally-tagged serializer rejects newtype variants whose
payload is not a map or struct at runtime; `Failure(String)` is such a
variant, so serializing it returns an error. -/

/-- JSON values.  Numbers are restricted to nonnegative integers: every
number this program writes or reads is one (the u64/u32 payload fields and
the decimal index id), so the width/sign checks of Rust typed parsing are
never hit and are not modelled. -/
inductive Json where
  | null
  | bool (b : Bool)
  | num (n : Nat)
  | str (s : String)
  | arr (xs : List Json)
  | obj (fields : List (String × Json))

/-- First value bound to key `k` in a JSON object's field list. -/
def getField (fields : List (String × Json)) (k : String) : Option Json :=
  match fields with
  | [] => none
  | (k', v) :: rest => if k' = k then some v else getField rest k

/-- serde serialization of `std::time::SystemTime` (its duration since the
UNIX epoch, as two struct fields). -/
def serTime (t : RSystemTime) : Json :=
  .obj [("secs_since_epoch", .num t.secs), ("nanos_since_epoch", .num t.nanos)]

/-- serde serialization of `std::time::Duration`. -/
def serDur (d : RDuration) : Json :=
  .obj [("secs", .num d.secs), ("nanos", .num d.nanos)]

/-- Model of `serde_json::to_string(&state)` at tree level, for the
internally tagged `State` of `src/fsm/mod.rs`.  The tag field is "type";
struct-variant fields are inlined next to it.  The newtype variant
`Failure(String)` cannot be internally tagged (its payload serializes as a
bare string, not a map), so serde fails at runtime. -/
def serializeState : State → Except String Json
  | .NotAvailable => .ok (.obj [("type", .str "NotAvailable")])
  | .DownloadingInProgress t =>
    .ok (.obj [("type", .str "DownloadingInProgress"), ("started_at", serTime t)])
  | .DownloadingError d =>
    .ok (.obj [("type", .str "DownloadingError"), ("details", .str d)])
  | .Downloaded p d =>
    .ok (.obj [("type", .str "Downloaded"), ("file_path", .str p), ("duration", serDur d)])
  | .ProcessingInProgress p t =>
    .ok (.obj [("type", .str "ProcessingInProgress"), ("file_path", .str p),
               ("started_at", serTime t)])
  | .ProcessingError d =>
    .ok (.obj [("type", .str "ProcessingError"), ("details", .str d)])
  | .Processed p d =>
    .ok (.obj [("type", .str "Processed"), ("file_path", .str p), ("duration", serDur d)])
  | .IndexingInProgress p t =>
    .ok (.obj [("type", .str "IndexingInProgress"), ("file_path", .str p),
               ("started_at", serTime t)])
  | .IndexingError d =>
    .ok (.obj [("type", .str "IndexingError"), ("details", .str d)])
  | .Indexed d =>
    .ok (.obj [("type", .str "Indexed"), ("duration", serDur d)])
  | .ValidationInProgress => .ok (.obj [("type", .str "ValidationInProgress")])
  | .ValidationError d =>
    .ok (.obj [("type", .str "ValidationError"), ("details", .str d)])
  | .Available => .ok (.obj [("type", .str "Available")])
  | .Failure _ =>
    .error "cannot serialize tagged newtype variant State::Failure containing a string"

/-- Deserialize a numeric (`u64`/`u32`) field. -/
def getNum (fields : List (String × Json)) (k : String) : Except String Nat :=
  match getField fields k with
  | some (.num n) => .ok n
  | some _ => .error ("invalid type for field " ++ k)
  | none => .error ("missing field " ++ k)

/-- Deserialize a string field. -/
def getStr (fields : List (String × Json)) (k : String) : Except String String :=
  match getField fields k with
  | some (.str s) => .ok s
  | some _ => .error ("invalid type for field " ++ k)
  | none => .error ("missing field " ++ k)

/-- Rust's `Duration::new(secs, nanos)`: nanoseconds at or above 10^9 are
carried into the seconds. -/
def durationNew (secs nanos : Nat) : RDuration :=
  ⟨secs + nanos / 1000000000, nanos % 1000000000⟩

/-- serde deserialization of a `Duration` from an object's field. -/
def getDur (fields : List (String × Json)) (k : String) : Except String RDuration :=
  match getField fields k with
  | some (.obj df) =>
    match getNum df "secs", getNum df "nanos" with
    | .ok s, .ok n => .ok (durationNew s n)
    | .error e, _ => .error e
    | _, .error e => .error e
  | some _ => .error ("invalid type for field " ++ k)
  | none => .error ("missing field " ++ k)

/-- serde deserialization of a `SystemTime` from an object's field
(`UNIX_EPOCH + Duration::new(secs, nanos)`). -/
def getTime (fields : List (String × Json)) (k : String) : Except String RSystemTime :=
  match getField fields k with
  | some (.obj df) =>
    match getNum df "secs_since_epoch", getNum df "nanos_since_epoch" with
    | .ok s, .ok n => .ok ⟨(durationNew s n).secs, (durationNew s n).nanos⟩
    | .error e, _ => .error e
    | _, .error e => .error e
  | some _ => .error ("invalid type for field " ++ k)
  | none => .error ("missing field " ++ k)

/-- Model of `serde_json::from_str::<State>` at tree level: read the "type"
tag, then the variant's payload fields from the same object (unknown fields
are ignored, as serde does by default).  The newtype variant `Failure`
would hand the remaining map to `String::deserialize`, which rejects a map,
so it fails. -/
def deserializeState (j : Json) : Except String State :=
  match j with
  | .obj fields =>
    match getField fields "type" with
    | some (.str tag) =>
      if tag = "NotAvailable" then .ok .NotAvailable
      else if tag = "DownloadingInProgress" then
        match getTime fields "started_at" with
        | .ok t => .ok (.DownloadingInProgress t)
        | .error e => .error e
      else if tag = "DownloadingError" then
        match getStr fields "details" with
        | .ok d => .ok (.DownloadingError d)
        | .error e => .error e
      else if tag = "Downloaded" then
        match getStr fields "file_path", getDur fields "duration" with
        | .ok p, .ok d => .ok (.Downloaded p d)
        | .error e, _ => .error e
        | _, .error e => .error e
      else if tag = "ProcessingInProgress" then
        match getStr fields "file_path", getTime fields "started_at" with
        | .ok p, .ok t => .ok (.ProcessingInProgress p t)
        | .error e, _ => .error e
        | _, .error e => .error e
      else if tag = "ProcessingError" then
        match getStr fields "details" with
        | .ok d => .ok (.ProcessingError d)
        | .error e => .error e
      else if tag = "Processed" then
        match getStr fields "file_path", getDur fields "duration" with
        | .ok p, .ok d => .ok (.Processed p d)
        | .error e, _ => .error e
        | _, .error e => .error e
      else if tag = "IndexingInProgress" then
        match getStr fields "file_path", getTime fields "started_at" with
        | .ok p, .ok t => .ok (.IndexingInProgress p t)
        | .error e, _ => .error e
        | _, .error e => .error e
      else if tag = "IndexingError" then
        match getStr fields "details" with
        | .ok d => .ok (.IndexingError d)
        | .error e => .error e
      else if tag = "Indexed" then
        match getDur fields "duration" with
        | .ok d => .ok (.Indexed d)
        | .error e => .error e
      else if tag = "ValidationInProgress" then .ok .ValidationInProgress
      else if tag = "ValidationError" then
        match getStr fields "details" with
        | .ok d => .ok (.ValidationError d)
        | .error e => .error e
      else if tag = "Available" then .ok .Available
      else if tag = "Failure" then
        .error "invalid type: map, expected a string"
      else .error ("unknown variant " ++ tag)
    | some _ => .error "invalid type for tag field type"
    | none => .error "missing field type"
  | _ => .error "invalid type, expected internally tagged enum State"

/-- Payload well-formedness: timestamps and durations hold values
representable by the Rust types `u64`/`u32` with nanoseconds below 10^9
(the `Duration`/`SystemTime` invariant). -/
def timeWf (t : RSystemTime) : Bool :=
  decide (t.secs < 18446744073709551616) && decide (t.nanos < 1000000000)

/-- Duration well-formedness, as for `timeWf`. -/
def durWf (d : RDuration) : Bool :=
  decide (d.secs < 18446744073709551616) && decide (d.nanos < 1000000000)

/-- All numeric payloads of a state are within the ranges Rust's types
guarantee. -/
def stateWf : State → Bool
  | .DownloadingInProgress t => timeWf t
  | .Downloaded _ d => durWf d
  | .ProcessingInProgress _ t => timeWf t
  | .Processed _ d => durWf d
  | .IndexingInProgress _ t => timeWf t
  | .Indexed d => durWf d
  | _ => true

/-! ## The job dispatcher (`FSM::run`) and the driver loop (`exec`)

`FSM::run` (`src/fsm/mod.rs` lines 229-481) inspects the current state and
pushes at most one event onto the FSM's queue.  The external jobs it calls
(downloads, `cosmogony` generation, the `*2mimir` index loaders) are
collaborators; their outcomes are injected through `JobEnv`.  The
`started_at.elapsed().unwrap()` measurement is injected as `elapsed`. -/

/-- The FSM fields `run` consults, together with the outcomes of the
external jobs it may invoke.  Each job function receives the arguments the
code passes at the call site. -/
structure JobEnv where
  dataSource : String
  indexType : String
  region : String
  workingDir : String
  mimirsDir : String
  cosmogonyDir : String
  es : String
  elapsed : RSystemTime → RDuration
  downloadOsmRegion : String → String → Except String String
  downloadBanoRegion : String → String → Except String String
  downloadNtfsRegion : String → String → Except String String
  generateCosmogony : String → String → String → String → Except String String
  indexBanoRegion : String → String → String → Except String Unit
  indexOsmRegion : String → String → String → Bool → Bool → Bool → Nat → Except String Unit
  indexCosmogonyRegion : String → String → String → Except String Unit
  indexNtfsRegion : String → String → String → Except String Unit

/-- Model of `FSM::run`: the list of events pushed onto `self.events`
(always zero or one).  String dispatch mirrors the code's `match` on
`data_source.as_ref()` as a sequential equality test, in source order. -/
def run (env : JobEnv) (s : State) : List Event :=
  match s with
  | .NotAvailable => []
  | .DownloadingInProgress started_at =>
    if env.dataSource = "cosmogony" then
      match env.downloadOsmRegion env.workingDir env.region with
      | .ok file_path => [.DownloadingComplete file_path (env.elapsed started_at)]
      | .error err => [.DownloadingError ("Could not download: " ++ err)]
    else if env.dataSource = "bano" then
      match env.downloadBanoRegion env.workingDir env.region with
      | .ok file_path => [.DownloadingComplete file_path (env.elapsed started_at)]
      | .error err => [.DownloadingError ("Could not download: " ++ err)]
    else if env.dataSource = "osm" then
      match env.downloadOsmRegion env.workingDir env.region with
      | .ok file_path => [.DownloadingComplete file_path (env.elapsed started_at)]
      | .error err => [.DownloadingError ("Could not download: " ++ err)]
    else if env.dataSource = "ntfs" then
      match env.downloadNtfsRegion env.workingDir env.region with
      | .ok file_path => [.DownloadingComplete file_path (env.elapsed started_at)]
      | .error err => [.DownloadingError ("Could not download: " ++ err)]
    else
      [.DownloadingError ("Dont know how to download " ++ env.dataSource)]
  | .DownloadingError _ => [.Reset]
  | .Downloaded file_path _ =>
    if env.dataSource = "cosmogony" then [.Process file_path]
    else [.Index file_path]
  | .ProcessingInProgress file_path started_at =>
    if env.dataSource = "cosmogony" then
      match env.generateCosmogony env.cosmogonyDir env.workingDir file_path env.region with
      | .ok path => [.ProcessingComplete path (env.elapsed started_at)]
      | .error err => [.ProcessingError ("Could not process: " ++ err)]
    else
      [.ProcessingError ("Dont know how to process " ++ env.dataSource)]
  | .ProcessingError _ => [.Reset]
  | .Processed file_path _ => [.Index file_path]
  | .IndexingInProgress file_path started_at =>
    if env.dataSource = "bano" then
      match env.indexBanoRegion env.mimirsDir env.es file_path with
      | .ok _ => [.IndexingComplete (env.elapsed started_at)]
      | .error err => [.IndexingError ("Could not index BANO: " ++ err)]
    else if env.dataSource = "osm" then
      let index : Option (Bool × Bool × Bool) :=
        if env.indexType = "admins" then some (true, false, false)
        else if env.indexType = "streets" then some (false, true, false)
        else none
      match index with
      | none => [.IndexingError ("Could not index " ++ env.indexType ++ " using OSM")]
      | some i =>
        match env.indexOsmRegion env.mimirsDir env.es file_path i.1 i.2.1 i.2.2 8 with
        | .ok _ => [.IndexingComplete (env.elapsed started_at)]
        | .error err => [.IndexingError ("Could not index OSM: " ++ err)]
    else if env.dataSource = "cosmogony" then
      match env.indexCosmogonyRegion env.mimirsDir env.es file_path with
      | .ok _ => [.IndexingComplete (env.elapsed started_at)]
      | .error err => [.IndexingError ("Could not index cosmogony: " ++ err)]
    else if env.dataSource = "ntfs" then
      match env.indexNtfsRegion env.mimirsDir env.es file_path with
      | .ok _ => [.IndexingComplete (env.elapsed started_at)]
      | .error err => [.IndexingError ("Could not index NTFS: " ++ err)]
    else
      [.IndexingError ("Dont know how to index " ++ env.dataSource)]
  | .IndexingError _ => [.Reset]
  | .Indexed _ => [.Validate]
  | .ValidationInProgress => [.ValidationComplete]
  | .ValidationError _ => [.Reset]
  | .Available => []
  | .Failure _ => []

/-- A concrete `JobEnv` with stub jobs that all succeed, parameterised by
the data source and index type, for evaluating the model on concrete
inputs. -/
def stubEnv (ds it : String) : JobEnv :=
  { dataSource := ds, indexType := it, region := "andorra",
    workingDir := "/w", mimirsDir := "/m", cosmogonyDir := "/c",
    es := "http://localhost:9200", elapsed := fun _ => ⟨1, 0⟩,
    downloadOsmRegion := fun _ _ => .ok "/w/andorra.osm.pbf",
    downloadBanoRegion := fun _ _ => .ok "/w/bano.csv",
    downloadNtfsRegion := fun _ _ => .ok "/w/ntfs.zip",
    generateCosmogony := fun _ _ _ _ => .ok "/w/cosmogony.json",
    indexBanoRegion := fun _ _ _ => .ok (),
    indexOsmRegion := fun _ _ _ _ _ _ _ => .ok (),
    indexCosmogonyRegion := fun _ _ _ => .ok (),
    indexNtfsRegion := fun _ _ _ => .ok () }

/-- Escaping of JSON string content, as `serde_json` renders it (the
strings this program handles contain no other characters needing escapes). -/
def escapeJsonString (s : String) : String :=
  s.data.foldl (fun acc c =>
    if c = '"' then acc ++ "\\\""
    else if c = '\\' then acc ++ "\\\\"
    else if c = '\n' then acc ++ "\\n"
    else if c = '\t' then acc ++ "\\t"
    else if c = '\r' then acc ++ "\\r"
    else acc.push c) ""

mutual

/-- Compact rendering of a JSON tree, as `serde_json::to_string` prints. -/
def renderJson : Json → String
  | .null => "null"
  | .bool b => if b then "true" else "false"
  | .num n => toString n
  | .str s => "\"" ++ escapeJsonString s ++ "\""
  | .arr xs => "[" ++ renderJsonList xs ++ "]"
  | .obj fs => "\x7b" ++ renderJsonFields fs ++ "\x7d"

/-- Comma-separated rendering of array elements. -/
def renderJsonList : List Json → String
  | [] => ""
  | [x] => renderJson x
  | x :: xs => renderJson x ++ "," ++ renderJsonList xs

/-- Comma-separated rendering of object fields. -/
def renderJsonFields : List (String × Json) → String
  | [] => ""
  | [(k, v)] => "\"" ++ escapeJsonString k ++ "\":" ++ renderJson v
  | (k, v) :: xs =>
    "\"" ++ escapeJsonString k ++ "\":" ++ renderJson v ++ "," ++ renderJsonFields xs

end

/-- Outcome of a driver run (`exec`, `src/fsm/mod.rs` lines 483-508):
either the loop left normally (empty queue, or break after publishing a
`Failure`), or the `serde_json::to_string(..).unwrap()` panicked.  Either
way the messages published so far are recorded as
(state, serialized state JSON) pairs. -/
inductive RunOutcome where
  | finished (published : List (State × String))
  | panicked (published : List (State × String))
  deriving DecidableEq, Repr

/-- Model of the loop of `exec`: pop an event, transition, serialize and
publish, break on `Failure`, otherwise dispatch (`run`) and append the
yielded events to the queue.  `fuel` bounds the number of iterations so the
function is total; every actual run terminates well within the fuel given
to it (see `exec_run_analysis`). -/
def execLoop (env : JobEnv) (now : RSystemTime) :
    Nat → State → List Event → List (State × String) → Option RunOutcome
  | 0, _, _, _ => none
  | fuel + 1, s, q, acc =>
    match q with
    | [] => some (.finished acc.reverse)
    | e :: rest =>
      let s' := next now s e
      match serializeState s' with
      | .error _ => some (.panicked acc.reverse)
      | .ok j =>
        let acc' := (s', renderJson j) :: acc
        if isFailure s' then some (.finished acc'.reverse)
        else execLoop env now fuel s' (rest ++ run env s') acc'

/-- The sequence of states the driver steps through, one entry per
transition, mirroring `execLoop` without the publishing. -/
def runStates (env : JobEnv) (now : RSystemTime) :
    Nat → State → List Event → List State
  | 0, _, _ => []
  | fuel + 1, s, q =>
    match q with
    | [] => []
    | e :: rest =>
      let s' := next now s e
      if isFailure s' then [s']
      else s' :: runStates env now fuel s' (rest ++ run env s')

/-- The messages published by a full driver run started (as `exec` does) by
enqueuing `Download` with the FSM in `NotAvailable`; empty if the run did
not finish within the fuel (it always does, see `exec_run_analysis`). -/
def execTrace (env : JobEnv) (now : RSystemTime) : List (State × String) :=
  match execLoop env now 12 .NotAvailable [.Download] [] with
  | some (.finished tr) => tr
  | _ => []

/-- The three-frame multipart messages `exec` hands to the publisher:
frame 0 the topic, frame 1 the decimal index id, frame 2 the state JSON. -/
def execMessages (env : JobEnv) (now : RSystemTime) (topic : String) (id : Int) :
    List (List String) :=
  (execTrace env now).map (fun sb => [topic, toString id, sb.2])

/-- Does the list contain a `ValidationError` state? -/
def hasValidationErrorState (l : List State) : Bool :=
  l.any (fun s => match s with | .ValidationError _ => true | _ => false)

/-! ## The status listener (`update_notifications`, `src/api/indexes.rs`)

The listener subscribes to the publisher's topic and, for each received
multipart message, skips the topic frame, takes the NEXT frame
(`msg.iter().skip(1).next()`), parses it with `serde_json::from_str::<State>`
— propagating a parse failure with `?` — writes that frame's text into the
index record via `update_index_status`, and breaks after a `NotAvailable`
or `Available` status.  Parsing a frame string requires a model of
`serde_json`'s text parsing, given below. -/

/-- The `\x7b` opening-brace character. -/
def lbrace : Char := Char.ofNat 123

/-- The `\x7d` closing-brace character. -/
def rbrace : Char := Char.ofNat 125

/-- Drop leading JSON whitespace. -/
def skipWs : List Char → List Char
  | [] => []
  | c :: cs => if c = ' ' || c = '\n' || c = '\t' || c = '\r' then skipWs cs else c :: cs

/-- Consume an expected literal tail (for `true`/`false`/`null`). -/
def takePrefixLit : List Char → List Char → Option (List Char)
  | cs, [] => some cs
  | [], _ :: _ => none
  | c :: cs, l :: ls => if c = l then takePrefixLit cs ls else none

/-- Consume a run of decimal digits, accumulating their value. -/
def parseNumRest : Nat → List Char → Nat × List Char
  | acc, [] => (acc, [])
  | acc, c :: cs =>
    if c.isDigit then parseNumRest (acc * 10 + (c.toNat - 48)) cs else (acc, c :: cs)

/-- Parse the body of a JSON string (after the opening quote) up to the
closing quote, decoding the common escapes. -/
def parseStringBody : List Char → Except String (String × List Char)
  | [] => .error "unterminated string"
  | c :: cs =>
    if c = '"' then .ok ("", cs)
    else if c = '\\' then
      match cs with
      | [] => .error "unterminated escape"
      | e :: cs' =>
        let dec : Except String Char :=
          if e = '"' then .ok '"'
          else if e = '\\' then .ok '\\'
          else if e = '/' then .ok '/'
          else if e = 'n' then .ok '\n'
          else if e = 't' then .ok '\t'
          else if e = 'r' then .ok '\r'
          else .error "unsupported escape"
        match dec with
        | .error er => .error er
        | .ok ch =>
          match parseStringBody cs' with
          | .ok (s, rest) => .ok (String.mk (ch :: s.data), rest)
          | .error er => .error er
    else
      match parseStringBody cs with
      | .ok (s, rest) => .ok (String.mk (c :: s.data), rest)
      | .error er => .error er

mutual

/-- Parse one JSON value.  `fuel` bounds the recursion; `parseJson` supplies
more than enough for its input. -/
def parseValue : Nat → List Char → Except String (Json × List Char)
  | 0, _ => .error "recursion limit exceeded"
  | fuel + 1, cs =>
    match skipWs cs with
    | [] => .error "unexpected end of input"
    | c :: cs' =>
      if c = '"' then
        match parseStringBody cs' with
        | .ok (s, rest) => .ok (.str s, rest)
        | .error e => .error e
      else if c.isDigit then
        let r := parseNumRest (c.toNat - 48) cs'
        .ok (.num r.1, r.2)
      else if c = 't' then
        match takePrefixLit cs' ['r', 'u', 'e'] with
        | some rest => .ok (.bool true, rest)
        | none => .error "invalid literal"
      else if c = 'f' then
        match takePrefixLit cs' ['a', 'l', 's', 'e'] with
        | some rest => .ok (.bool false, rest)
        | none => .error "invalid literal"
      else if c = 'n' then
        match takePrefixLit cs' ['u', 'l', 'l'] with
        | some rest => .ok (.null, rest)
        | none => .error "invalid literal"
      else if c = '[' then
        match skipWs cs' with
        | ']' :: rest => .ok (.arr [], rest)
        | cs'' =>
          match parseArrayRest fuel cs'' with
          | .ok (vs, rest) => .ok (.arr vs, rest)
          | .error e => .error e
      else if c = lbrace then
        match skipWs cs' with
        | d :: rest =>
          if d = rbrace then .ok (.obj [], rest)
          else
            match parseObjRest fuel (d :: rest) with
            | .ok (fs, rest') => .ok (.obj fs, rest')
            | .error e => .error e
        | [] => .error "unexpected end of input"
      else .error "unexpected character"

/-- Parse `value (, value)* ]` after an opening bracket. -/
def parseArrayRest : Nat → List Char → Except String (List Json × List Char)
  | 0, _ => .error "recursion limit exceeded"
  | fuel + 1, cs =>
    match parseValue fuel cs with
    | .error e => .error e
    | .ok (v, rest) =>
      match skipWs rest with
      | ',' :: rest' =>
        match parseArrayRest fuel rest' with
        | .ok (vs, rest'') => .ok (v :: vs, rest'')
        | .error e => .error e
      | ']' :: rest' => .ok ([v], rest')
      | _ => .error "expected comma or closing bracket"

/-- Parse `"key": value (, "key": value)*` and the closing brace. -/
def parseObjRest : Nat → List Char → Except String (List (String × Json) × List Char)
  | 0, _ => .error "recursion limit exceeded"
  | fuel + 1, cs =>
    match skipWs cs with
    | '"' :: cs' =>
      match parseStringBody cs' with
      | .error e => .error e
      | .ok (k, afterKey) =>
        match skipWs afterKey with
        | ':' :: afterColon =>
          match parseValue fuel afterColon with
          | .error e => .error e
          | .ok (v, rest) =>
            match skipWs rest with
            | ',' :: rest' =>
              match parseObjRest fuel rest' with
              | .ok (fs, rest'') => .ok ((k, v) :: fs, rest'')
              | .error e => .error e
            | d :: rest' =>
              if d = rbrace then .ok ([(k, v)], rest')
              else .error "expected comma or closing brace"
            | [] => .error "unexpected end of input"
        | _ => .error "expected colon"
    | _ => .error "expected string key"

end

/-- Parse a complete JSON document from a string (model of `serde_json`'s
text layer). -/
def parseJson (s : String) : Except String Json :=
  match parseValue (s.length + 1) s.data with
  | .ok (j, rest) =>
    match skipWs rest with
    | [] => .ok j
    | _ => .error "trailing characters"
  | .error e => .error e

/-- Model of `serde_json::from_str::<State>`. -/
def stateFromStr (s : String) : Except String State :=
  match parseJson s with
  | .ok j => deserializeState j
  | .error e => .error e

/-- A status write performed through `update_index_status(index_id, msg)`:
the id passed and the raw frame text stored into the `status` column. -/
structure WriteOp where
  id : Int
  status : String
  deriving DecidableEq, Repr

/-- Model of the receive loop of `update_notifications`
(`src/api/indexes.rs` lines 155-244): the incoming multipart messages are
given as lists of frames.  For each message the listener drops the first
frame (the topic) and takes the next frame, parses it as a `State` —
returning the error (snafu context "Could not deserialize state") if
parsing fails, as the `?` operator does — records the store write, and
stops after a `NotAvailable` or `Available` status.  The store and bus
themselves are assumed healthy; their error paths are not modelled. -/
def update_notifications (index_id : Int) (msgs : List (List String)) :
    List WriteOp × Except String Unit :=
  match msgs with
  | [] => ([], .ok ())
  | frames :: rest =>
    match frames.drop 1 with
    | [] => ([], .error "Just one item in a multipart message. That is plain wrong!")
    | msg :: _ =>
      match stateFromStr msg with
      | .error _ => ([], .error "Could not deserialize state")
      | .ok status =>
        let w : WriteOp := ⟨index_id, msg⟩
        match status with
        | .NotAvailable => ([w], .ok ())
        | .Available => ([w], .ok ())
        | _ =>
          let r := update_notifications index_id rest
          (w :: r.1, r.2)

/-! ## The store (`update_index_status`, `src/db/sqlite.rs` lines 115-153) -/

/-- A row of the `indexes` table (timestamps are epoch seconds). -/
structure IndexRow where
  index_id : Int
  index_type : String
  data_source : String
  region : String
  status : String
  created_at : Int
  updated_at : Int
  deriving DecidableEq, Repr

/-- Result of `update_index_status`: the function either returns the
re-selected row (and the table is left in the updated state), or panics —
the `.expect("Cursor")` on an empty cursor; it has no error-return path for
a missing id. -/
inductive SqlOutcome where
  | panicked (msg : String)
  | ok (rec : IndexRow) (db : List IndexRow)
  deriving DecidableEq, Repr

/-- Model of `update_index_status`: inside a savepoint, `UPDATE indexes SET
status = $1, updated_at = STRFTIME(...) WHERE index_id = $2` (every
matching row), then `SELECT * FROM indexes WHERE index_id = $1` taking the
first row of the cursor; an empty cursor hits `.expect("Cursor")` and
panics.  The store clock value is injected as `now`. -/
def update_index_status (db : List IndexRow) (index_id : Int) (status : String)
    (now : Int) : SqlOutcome :=
  let db' := db.map (fun r =>
    if r.index_id = index_id then { r with status := status, updated_at := now } else r)
  match db'.find? (fun r => r.index_id == index_id) with
  | none => .panicked "Cursor"
  | some rec => .ok rec db'

/-- C1: For every (state, event) pair, `next` (from the source) returns
exactly the target state given by the legal-transition table of spec
section 4.1 (`specTable`), and for every pair not listed in that table it
returns a `Failure` state; `next` is total (it is a Lean function). -/
theorem next_agrees_with_spec_table (now : RSystemTime) (s : State) (e : Event) :
    (∀ t, specTable now s e = some t → next now s e = t) ∧
      (specTable now s e = none → isFailure (next now s e) = true) := by
  cases s <;> cases e <;> simp [specTable, next, isFailure]

/-- C1 witness: the theorem applied at `(NotAvailable, Download)`. -/
theorem next_agrees_with_spec_table_witness :
    next ⟨7, 0⟩ .NotAvailable .Download = .DownloadingInProgress ⟨7, 0⟩ :=
  (next_agrees_with_spec_table ⟨7, 0⟩ .NotAvailable .Download).1 _ rfl

/-- C3: the absorbing states have no outgoing transitions — for every event
`e`, `next Available e` and `next (Failure m) e` are `Failure` states — and
the failure message of `next Available Download` contains both "Available"
and "Download". -/
theorem absorbing_states_have_no_outgoing_transitions
    (now : RSystemTime) (e : Event) (m : String) :
    isFailure (next now .Available e) = true ∧
      isFailure (next now (.Failure m) e) = true ∧
      strHasSub (failureMessage (next now .Available .Download)) "Available" = true ∧
      strHasSub (failureMessage (next now .Available .Download)) "Download" = true := by
  refine ⟨?_, ?_, by rfl, by rfl⟩ <;> cases e <;> rfl

/-- C2 counterexample: the `Failure` variant does not round-trip.  serde's
internally-tagged serializer rejects a newtype variant containing a string
at runtime, so `serialize(Failure "boom")` is an error and the round-trip
cannot return `Failure "boom"`. -/
theorem failure_state_does_not_roundtrip :
    serializeState (.Failure "boom") =
        .error "cannot serialize tagged newtype variant State::Failure containing a string" ∧
      (serializeState (.Failure "boom")).bind deserializeState ≠
        .ok (.Failure "boom") := by
  exact ⟨rfl, by simp [serializeState, Except.bind]⟩

set_option maxRecDepth 8000 in
/-- C2 (amended): `deserialize(serialize(s)) = s` for every `State` variant
other than `Failure`, payloads included, whenever the numeric payloads are
within the ranges the Rust types guarantee (`stateWf`). -/
theorem state_json_roundtrip_except_failure (s : State)
    (hwf : stateWf s = true) (hnf : isFailure s = false) :
    (serializeState s).bind deserializeState = .ok s := by
  cases s with
  | NotAvailable => rfl
  | DownloadingInProgress t =>
    obtain ⟨ts, tn⟩ := t
    simp [stateWf, timeWf] at hwf
    show Except.ok (State.DownloadingInProgress ⟨ts + tn / 1000000000, tn % 1000000000⟩) =
      Except.ok (State.DownloadingInProgress ⟨ts, tn⟩)
    rw [Nat.div_eq_of_lt hwf.2, Nat.mod_eq_of_lt hwf.2, Nat.add_zero]
  | DownloadingError d => rfl
  | Downloaded p d =>
    obtain ⟨ds, dn⟩ := d
    simp [stateWf, durWf] at hwf
    show Except.ok (State.Downloaded p ⟨ds + dn / 1000000000, dn % 1000000000⟩) =
      Except.ok (State.Downloaded p ⟨ds, dn⟩)
    rw [Nat.div_eq_of_lt hwf.2, Nat.mod_eq_of_lt hwf.2, Nat.add_zero]
  | ProcessingInProgress p t =>
    obtain ⟨ts, tn⟩ := t
    simp [stateWf, timeWf] at hwf
    show Except.ok (State.ProcessingInProgress p ⟨ts + tn / 1000000000, tn % 1000000000⟩) =
      Except.ok (State.ProcessingInProgress p ⟨ts, tn⟩)
    rw [Nat.div_eq_of_lt hwf.2, Nat.mod_eq_of_lt hwf.2, Nat.add_zero]
  | ProcessingError d => rfl
  | Processed p d =>
    obtain ⟨ds, dn⟩ := d
    simp [stateWf, durWf] at hwf
    show Except.ok (State.Processed p ⟨ds + dn / 1000000000, dn % 1000000000⟩) =
      Except.ok (State.Processed p ⟨ds, dn⟩)
    rw [Nat.div_eq_of_lt hwf.2, Nat.mod_eq_of_lt hwf.2, Nat.add_zero]
  | IndexingInProgress p t =>
    obtain ⟨ts, tn⟩ := t
    simp [stateWf, timeWf] at hwf
    show Except.ok (State.IndexingInProgress p ⟨ts + tn / 1000000000, tn % 1000000000⟩) =
      Except.ok (State.IndexingInProgress p ⟨ts, tn⟩)
    rw [Nat.div_eq_of_lt hwf.2, Nat.mod_eq_of_lt hwf.2, Nat.add_zero]
  | IndexingError d => rfl
  | Indexed d =>
    obtain ⟨ds, dn⟩ := d
    simp [stateWf, durWf] at hwf
    show Except.ok (State.Indexed ⟨ds + dn / 1000000000, dn % 1000000000⟩) =
      Except.ok (State.Indexed ⟨ds, dn⟩)
    rw [Nat.div_eq_of_lt hwf.2, Nat.mod_eq_of_lt hwf.2, Nat.add_zero]
  | ValidationInProgress => rfl
  | ValidationError d => rfl
  | Available => rfl
  | Failure m => simp [isFailure] at hnf

/-- C2 witness: the round-trip theorem applied at a concrete `Downloaded`
state. -/
theorem state_json_roundtrip_witness :
    (serializeState (.Downloaded "/data/osm.pbf" ⟨3, 500⟩)).bind deserializeState =
      .ok (.Downloaded "/data/osm.pbf" ⟨3, 500⟩) :=
  state_json_roundtrip_except_failure (.Downloaded "/data/osm.pbf" ⟨3, 500⟩)
    (by decide) rfl

/-- C7: in state `Downloaded{file_path}` the dispatcher enqueues
`Process(file_path)` exactly when `data_source = "cosmogony"`, and
`Index(file_path)` for every other data source; the decision is a pure
routing choice (it consults no job outcome). -/
theorem downloaded_routes_on_data_source (env : JobEnv) (p : String) (d : RDuration) :
    (run env (.Downloaded p d) = [.Process p] ↔ env.dataSource = "cosmogony") ∧
      (env.dataSource ≠ "cosmogony" → run env (.Downloaded p d) = [.Index p]) := by
  by_cases h : env.dataSource = "cosmogony" <;> simp [run, h]

/-- C7 witness: the theorem applied with `data_source = "osm"`. -/
theorem downloaded_routes_on_data_source_witness :
    run { dataSource := "osm", indexType := "admins", region := "andorra",
          workingDir := "/w", mimirsDir := "/m", cosmogonyDir := "/c",
          es := "http://localhost:9200", elapsed := fun _ => ⟨1, 0⟩,
          downloadOsmRegion := fun _ _ => .ok "/w/andorra.osm.pbf",
          downloadBanoRegion := fun _ _ => .ok "/w/bano.csv",
          downloadNtfsRegion := fun _ _ => .ok "/w/ntfs.zip",
          generateCosmogony := fun _ _ _ _ => .ok "/w/cosmogony.json",
          indexBanoRegion := fun _ _ _ => .ok (),
          indexOsmRegion := fun _ _ _ _ _ _ _ => .ok (),
          indexCosmogonyRegion := fun _ _ _ => .ok (),
          indexNtfsRegion := fun _ _ _ => .ok () }
        (.Downloaded "/w/andorra.osm.pbf" ⟨2, 0⟩) = [.Index "/w/andorra.osm.pbf"] :=
  (downloaded_routes_on_data_source _ _ _).2 (by decide)

/-- C8 counterexample: for `data_source = "unknown"` the dispatcher
enqueues `DownloadingError "Dont know how to download unknown"`, whose
detail string does NOT contain the claim's `"don't know how to download
unknown"` (the code writes `Dont`, with no apostrophe and a capital D). -/
theorem unknown_source_detail_differs_from_claim :
    run (stubEnv "unknown" "admins") (.DownloadingInProgress ⟨0, 0⟩) =
        [.DownloadingError "Dont know how to download unknown"] ∧
      strHasSub "Dont know how to download unknown"
        "don't know how to download unknown" = false := by
  exact ⟨rfl, by decide⟩

/-- C8 (amended): when `data_source` is none of "osm", "bano", "cosmogony",
"ntfs", the dispatcher in `DownloadingInProgress` enqueues a
`DownloadingError` whose detail string is exactly
`"Dont know how to download <src>"`. -/
theorem unknown_source_yields_downloading_error (env : JobEnv) (t : RSystemTime)
    (h1 : env.dataSource ≠ "osm") (h2 : env.dataSource ≠ "bano")
    (h3 : env.dataSource ≠ "cosmogony") (h4 : env.dataSource ≠ "ntfs") :
    run env (.DownloadingInProgress t) =
      [.DownloadingError ("Dont know how to download " ++ env.dataSource)] := by
  simp [run, h1, h2, h3, h4]

/-- C8 witness: the amended theorem applied at `data_source = "unknown"`. -/
theorem unknown_source_yields_downloading_error_witness :
    run (stubEnv "unknown" "admins") (.DownloadingInProgress ⟨0, 0⟩) =
      [.DownloadingError ("Dont know how to download " ++ "unknown")] :=
  unknown_source_yields_downloading_error (stubEnv "unknown" "admins") ⟨0, 0⟩
    (by decide) (by decide) (by decide) (by decide)

set_option maxRecDepth 8000 in
/-- Case analysis of a full driver run: for every environment the loop
finishes within its fuel, publishes exactly one message per transition,
publishes at least one message, ends on `Available` or (after a `Reset`) on
`NotAvailable`, and never passes through `ValidationError`. -/
lemma exec_run_analysis (env : JobEnv) (now : RSystemTime) :
    execLoop env now 12 .NotAvailable [.Download] [] =
        some (.finished (execTrace env now)) ∧
      (execTrace env now).map Prod.fst = runStates env now 12 .NotAvailable [.Download] ∧
      (execTrace env now) ≠ [] ∧
      (((execTrace env now).map Prod.fst).getLast? = some State.Available ∨
        ((execTrace env now).map Prod.fst).getLast? = some State.NotAvailable) ∧
      hasValidationErrorState ((execTrace env now).map Prod.fst) = false := by
  by_cases hc : env.dataSource = "cosmogony"
  · cases hdl : env.downloadOsmRegion env.workingDir env.region with
    | error e =>
      simp [execTrace, execLoop, runStates, next, run, serializeState, serTime, serDur,
        isFailure, hasValidationErrorState, hc, hdl]
    | ok p =>
      cases hgen : env.generateCosmogony env.cosmogonyDir env.workingDir p env.region with
      | error e =>
        simp [execTrace, execLoop, runStates, next, run, serializeState, serTime, serDur,
          isFailure, hasValidationErrorState, hc, hdl, hgen]
      | ok q =>
        cases hidx : env.indexCosmogonyRegion env.mimirsDir env.es q with
        | error e =>
          simp [execTrace, execLoop, runStates, next, run, serializeState, serTime, serDur,
            isFailure, hasValidationErrorState, hc, hdl, hgen, hidx]
        | ok u =>
          simp [execTrace, execLoop, runStates, next, run, serializeState, serTime, serDur,
            isFailure, hasValidationErrorState, hc, hdl, hgen, hidx]
  · by_cases hb : env.dataSource = "bano"
    · cases hdl : env.downloadBanoRegion env.workingDir env.region with
      | error e =>
        simp [execTrace, execLoop, runStates, next, run, serializeState, serTime, serDur,
          isFailure, hasValidationErrorState, hc, hb, hdl]
      | ok p =>
        cases hidx : env.indexBanoRegion env.mimirsDir env.es p with
        | error e =>
          simp [execTrace, execLoop, runStates, next, run, serializeState, serTime, serDur,
            isFailure, hasValidationErrorState, hc, hb, hdl, hidx]
        | ok u =>
          simp [execTrace, execLoop, runStates, next, run, serializeState, serTime, serDur,
            isFailure, hasValidationErrorState, hc, hb, hdl, hidx]
    · by_cases ho : env.dataSource = "osm"
      · cases hdl : env.downloadOsmRegion env.workingDir env.region with
        | error e =>
          simp [execTrace, execLoop, runStates, next, run, serializeState, serTime, serDur,
            isFailure, hasValidationErrorState, hc, hb, ho, hdl]
        | ok p =>
          by_cases hia : env.indexType = "admins"
          · cases hio : env.indexOsmRegion env.mimirsDir env.es p true false false 8 with
            | error e =>
              simp [execTrace, execLoop, runStates, next, run, serializeState, serTime,
                serDur, isFailure, hasValidationErrorState, hc, hb, ho, hia, hdl, hio]
            | ok u =>
              simp [execTrace, execLoop, runStates, next, run, serializeState, serTime,
                serDur, isFailure, hasValidationErrorState, hc, hb, ho, hia, hdl, hio]
          · by_cases his : env.indexType = "streets"
            · cases hio : env.indexOsmRegion env.mimirsDir env.es p false true false 8 with
              | error e =>
                simp [execTrace, execLoop, runStates, next, run, serializeState, serTime,
                  serDur, isFailure, hasValidationErrorState, hc, hb, ho, hia, his, hdl, hio]
              | ok u =>
                simp [execTrace, execLoop, runStates, next, run, serializeState, serTime,
                  serDur, isFailure, hasValidationErrorState, hc, hb, ho, hia, his, hdl, hio]
            · simp [execTrace, execLoop, runStates, next, run, serializeState, serTime,
                serDur, isFailure, hasValidationErrorState, hc, hb, ho, hia, his, hdl]
      · by_cases hn : env.dataSource = "ntfs"
        · cases hdl : env.downloadNtfsRegion env.workingDir env.region with
          | error e =>
            simp [execTrace, execLoop, runStates, next, run, serializeState, serTime,
              serDur, isFailure, hasValidationErrorState, hc, hb, ho, hn, hdl]
          | ok p =>
            cases hidx : env.indexNtfsRegion env.mimirsDir env.es p with
            | error e =>
              simp [execTrace, execLoop, runStates, next, run, serializeState, serTime,
                serDur, isFailure, hasValidationErrorState, hc, hb, ho, hn, hdl, hidx]
            | ok u =>
              simp [execTrace, execLoop, runStates, next, run, serializeState, serTime,
                serDur, isFailure, hasValidationErrorState, hc, hb, ho, hn, hdl, hidx]
        · simp [execTrace, execLoop, runStates, next, run, serializeState, serTime,
            serDur, isFailure, hasValidationErrorState, hc, hb, ho, hn]

/-- C4: every driver run — the `exec` loop started by enqueuing `Download`
with the FSM in `NotAvailable` — finishes, publishes at least one message,
publishes exactly one message per transition in transition order
(`runStates`), and the state carried by the last published message is
`Available`, `NotAvailable` (reached after a `Reset`), or `Failure`. -/
theorem exec_publishes_per_transition_and_ends_absorbed
    (env : JobEnv) (now : RSystemTime) :
    execLoop env now 12 .NotAvailable [.Download] [] =
        some (.finished (execTrace env now)) ∧
      (execTrace env now).map Prod.fst = runStates env now 12 .NotAvailable [.Download] ∧
      (execTrace env now) ≠ [] ∧
      (((execTrace env now).map Prod.fst).getLast? = some State.Available ∨
        ((execTrace env now).map Prod.fst).getLast? = some State.NotAvailable ∨
        ∃ m, ((execTrace env now).map Prod.fst).getLast? = some (State.Failure m)) := by
  obtain ⟨h1, h2, h3, h4, _⟩ := exec_run_analysis env now
  exact ⟨h1, h2, h3, by rcases h4 with h | h <;> simp [h]⟩

/-- C9: in state `ValidationInProgress` the dispatcher always enqueues
`ValidationComplete` (so never `ValidationError`), and consequently no
driver run started from `NotAvailable` with the driver's own dispatcher
ever passes through a `ValidationError` state. -/
theorem validation_always_completes (env : JobEnv) (now : RSystemTime) :
    run env .ValidationInProgress = [.ValidationComplete] ∧
      hasValidationErrorState ((execTrace env now).map Prod.fst) = false :=
  ⟨rfl, (exec_run_analysis env now).2.2.2.2⟩

/-- C5: evaluation of the listener on the messages actually published by a
driver run (stub jobs, `data_source = "osm"`, `index_type = "admins"`,
index id 1).  The run publishes six messages; in every one of them the
frame the listener extracts (skip the topic, take the next frame) is the
decimal id "1", not the state JSON of frame 2; parsing "1" as a `State`
fails, so the listener returns a deserialization error having written
nothing into the store. -/
theorem listener_never_stores_published_states :
    (execMessages (stubEnv "osm" "admins") ⟨1600000000, 0⟩ "state" 1).length = 6 ∧
      (execMessages (stubEnv "osm" "admins") ⟨1600000000, 0⟩ "state" 1).map
        (fun fr => (fr.drop 1).head?) = List.replicate 6 (some "1") ∧
      update_notifications 1 (execMessages (stubEnv "osm" "admins") ⟨1600000000, 0⟩ "state" 1) =
        ([], .error "Could not deserialize state") :=
  ⟨rfl, rfl, rfl⟩

/-- C6 counterexample: a received message whose frame 2 is perfectly valid
state JSON.  The claim says the listener parses frame 2 and, even on a
parse failure, skips and continues without ever returning an error.  The
code instead parses frame 1 (the id), fails, and returns the
deserialization error having written nothing. -/
theorem listener_aborts_despite_valid_frame2 :
    stateFromStr "\x7b\"type\":\"Available\"\x7d" = .ok .Available ∧
      update_notifications 7 [["state", "7", "\x7b\"type\":\"Available\"\x7d"]] =
        ([], .error "Could not deserialize state") :=
  ⟨rfl, rfl⟩

/-- C6 (amended): the listener parses the frame after the topic (frame 1 of
the three-frame message), and when that parse fails it returns the
deserialization error immediately: nothing is written and no later message
is processed. -/
theorem listener_aborts_on_parse_error (index_id : Int) (t f : String)
    (fs : List String) (rest : List (List String)) (e : String)
    (h : stateFromStr f = .error e) :
    update_notifications index_id ((t :: f :: fs) :: rest) =
      ([], .error "Could not deserialize state") := by
  simp [update_notifications, h]

/-- C6 witness: the amended theorem applied to a message whose post-topic
frame is not JSON, followed by a further message that is never reached. -/
theorem listener_aborts_on_parse_error_witness :
    update_notifications 7 [["state", "oops", "\x7b\"type\":\"Available\"\x7d"],
        ["state", "7", "\x7b\"type\":\"Available\"\x7d"]] =
      ([], .error "Could not deserialize state") :=
  listener_aborts_on_parse_error 7 "state" "oops" ["\x7b\"type\":\"Available\"\x7d"]
    [["state", "7", "\x7b\"type\":\"Available\"\x7d"]] "unexpected character" rfl

lemma find?_after_update (rs : List IndexRow) (index_id : Int) (status : String)
    (now : Int) :
    (rs.map (fun r =>
        if r.index_id = index_id then { r with status := status, updated_at := now }
        else r)).find? (fun r => r.index_id == index_id)
      = (rs.find? (fun r => r.index_id == index_id)).map
          (fun r => { r with status := status, updated_at := now }) := by
  induction rs with
  | nil => rfl
  | cons r rs ih =>
    by_cases h : r.index_id = index_id
    · simp [List.find?, h, ih]
    · have hb : (r.index_id == index_id) = false := by simp [h]
      simp [List.find?, h, hb, ih]

/-- C10: `update_index_status` has no NotFound error path.  When no stored
row has the requested id, the post-update SELECT yields no row and the
function panics with the empty-cursor expect ("Cursor"); when some row
matches, the function returns that row updated with the new status and the
store-clock timestamp. -/
theorem update_index_status_panics_on_missing_id (db : List IndexRow)
    (index_id : Int) (status : String) (now : Int) :
    (db.find? (fun r => r.index_id == index_id) = none →
      update_index_status db index_id status now = .panicked "Cursor") ∧
      (∀ r0, db.find? (fun r => r.index_id == index_id) = some r0 →
        update_index_status db index_id status now =
          .ok { r0 with status := status, updated_at := now }
            (db.map (fun r =>
              if r.index_id = index_id then { r with status := status, updated_at := now }
              else r))) := by
  constructor
  · intro hn
    unfold update_index_status
    dsimp only
    rw [find?_after_update, hn]
    rfl
  · intro r0 hs
    unfold update_index_status
    dsimp only
    rw [find?_after_update, hs]
    rfl

/-- C10 witness: the theorem applied to a one-row table, at a missing id
(the panic branch) via the first conjunct. -/
theorem update_index_status_panics_on_missing_id_witness :
    update_index_status
        [{ index_id := 1, index_type := "admins", data_source := "osm",
           region := "andorra", status := "\"NotAvailable\"",
           created_at := 100, updated_at := 100 }] 2 "\"Available\"" 200 =
      .panicked "Cursor" :=
  (update_index_status_panics_on_missing_id _ 2 _ 200).1 rfl

/-- C4 witness: the run theorem applied at a concrete environment. -/
theorem exec_publishes_per_transition_witness :
    execTrace (stubEnv "osm" "admins") ⟨1600000000, 0⟩ ≠ [] :=
  (exec_publishes_per_transition_and_ends_absorbed (stubEnv "osm" "admins")
    ⟨1600000000, 0⟩).2.2.1
